import Mathlib

/-!
Verification of `InteractionGroups` (src/src/geometry/interaction_groups.rs).

Pairwise filtering using bit masks.  The Rust struct has five `u32` fields;
we model `u32` values as natural numbers.  None of the operations of this
component performs arithmetic that can overflow (only bitwise AND and
(in)equality tests), so the embedding uses plain `Nat` fields; where a claim
depends on values being in the `u32` range (the behaviour of the all-ones
mask `u32::MAX`), the theorem carries the explicit bound `< 2 ^ 32`.

Spec terminology maps to the source field names as follows:
`grouping_memberships` is `belongs_to_with_grouping`, `grouping_filter` is
`collides_with_with_grouping`, and `grouping_id` is `belongs_to_grouping`.
-/

/-- The `u32::MAX` constant, `2 ^ 32 - 1`. -/
def u32MAX : Nat := 2 ^ 32 - 1

/-- Shallow embedding of the Rust struct `InteractionGroups`:
five `u32` fields, modelled as `Nat`. -/
structure InteractionGroups where
  /-- Groups memberships. -/
  memberships : Nat
  /-- Groups filter. -/
  filter : Nat
  /-- Bitwise set of groups this collider belongs to, for additional
  filtering within the same grouping. -/
  belongs_to_with_grouping : Nat
  /-- Bitwise set of groups this collider collides with, for additional
  filtering within the same grouping. -/
  collides_with_with_grouping : Nat
  /-- The grouping this collider belongs to. -/
  belongs_to_grouping : Nat
  deriving DecidableEq, Repr

namespace InteractionGroups

/-- `InteractionGroups::new`: initializes with the given interaction groups
and interaction mask. -/
def new (memberships filter belongs_to_with_grouping
    collides_with_with_grouping belongs_to_grouping : Nat) : InteractionGroups :=
  { memberships := memberships
    filter := filter
    belongs_to_with_grouping := belongs_to_with_grouping
    collides_with_with_grouping := collides_with_with_grouping
    belongs_to_grouping := belongs_to_grouping }

/-- `InteractionGroups::all`: allow interaction with everything. -/
def all : InteractionGroups :=
  new u32MAX u32MAX u32MAX u32MAX u32MAX

/-- `InteractionGroups::none`: prevent all interactions. -/
def none : InteractionGroups :=
  new 0 0 0 0 0

/-- `InteractionGroups::with_memberships`: sets the group this filter is
part of. -/
def with_memberships (self : InteractionGroups) (memberships : Nat) :
    InteractionGroups :=
  { self with memberships := memberships }

/-- `InteractionGroups::with_filter`: sets the interaction mask of this
filter. -/
def with_filter (self : InteractionGroups) (filter : Nat) :
    InteractionGroups :=
  { self with filter := filter }

/-- `InteractionGroups::test`: check if interactions should be allowed based
on the interaction memberships and filter, with the additional
grouping-scoped check when both sides share the same grouping. -/
def test (self rhs : InteractionGroups) : Bool :=
  (self.memberships &&& rhs.filter != 0) && (rhs.memberships &&& self.filter != 0)
  && (self.belongs_to_grouping != rhs.belongs_to_grouping
      || (self.belongs_to_grouping == rhs.belongs_to_grouping
          && (self.belongs_to_with_grouping &&& rhs.collides_with_with_grouping != 0)
          && (rhs.belongs_to_with_grouping &&& self.collides_with_with_grouping != 0)))

/-- `Default for InteractionGroups`: returns `all()`. -/
def default : InteractionGroups := all

/-- Well-formedness: all five fields are in the `u32` range. -/
def WF (x : InteractionGroups) : Prop :=
  x.memberships < 2 ^ 32 ∧ x.filter < 2 ^ 32 ∧
  x.belongs_to_with_grouping < 2 ^ 32 ∧
  x.collides_with_with_grouping < 2 ^ 32 ∧
  x.belongs_to_grouping < 2 ^ 32

/-- C1: `test a b` returns `true` iff the global mutual-consent test passes
and, when both sides share the same grouping id, the grouping-scoped
mutual-consent test also passes:
`(a.memberships & b.filter) ≠ 0 ∧ (b.memberships & a.filter) ≠ 0 ∧
(a.grouping_id ≠ b.grouping_id ∨
 ((a.grouping_memberships & b.grouping_filter) ≠ 0 ∧
  (b.grouping_memberships & a.grouping_filter) ≠ 0))`. -/
theorem test_characterization (a b : InteractionGroups) :
    test a b = true ↔
      ((a.memberships &&& b.filter ≠ 0) ∧ (b.memberships &&& a.filter ≠ 0) ∧
        (a.belongs_to_grouping ≠ b.belongs_to_grouping ∨
          ((a.belongs_to_with_grouping &&& b.collides_with_with_grouping ≠ 0) ∧
            (b.belongs_to_with_grouping &&& a.collides_with_with_grouping ≠ 0)))) := by
  simp [test]
  tauto

/-- C2: `test` is commutative: `test a b = test b a` for all filters. -/
theorem test_comm (a b : InteractionGroups) : test a b = test b a := by
  rw [Bool.eq_iff_iff]
  simp [test]
  tauto

/-- C3: the empty filter `none()` interacts with nothing, on either side;
in particular it blocks pairing against itself. -/
theorem test_none (x : InteractionGroups) :
    test x InteractionGroups.none = false ∧ test InteractionGroups.none x = false := by
  simp [test, InteractionGroups.none, new]

/-- C4: for a well-formed filter `x` with nonzero memberships and filter,
`test all x` depends only on `x`'s own fields being nonzero in the relevant
positions, with the grouping gate applying exactly when `x`'s grouping id
equals `all()`'s. -/
theorem test_all_left (x : InteractionGroups) (hm : x.memberships ≠ 0)
    (hf : x.filter ≠ 0) (hwf : x.WF) :
    test all x =
      ((x.filter != 0) && (x.memberships != 0) &&
        (x.belongs_to_grouping != all.belongs_to_grouping ||
          ((x.collides_with_with_grouping != 0) && (x.belongs_to_with_grouping != 0)))) := by
  obtain ⟨h1, h2, h3, h4, h5⟩ := hwf
  have e1 : u32MAX &&& x.filter = x.filter := by
    rw [u32MAX, Nat.and_comm]
    exact Nat.and_pow_two_sub_one_of_lt_two_pow h2
  have e2 : x.memberships &&& u32MAX = x.memberships := by
    rw [u32MAX]
    exact Nat.and_pow_two_sub_one_of_lt_two_pow h1
  have e3 : u32MAX &&& x.collides_with_with_grouping = x.collides_with_with_grouping := by
    rw [u32MAX, Nat.and_comm]
    exact Nat.and_pow_two_sub_one_of_lt_two_pow h4
  have e4 : x.belongs_to_with_grouping &&& u32MAX = x.belongs_to_with_grouping := by
    rw [u32MAX]
    exact Nat.and_pow_two_sub_one_of_lt_two_pow h3
  rw [Bool.eq_iff_iff]
  simp [test, all, new, e1, e2, e3, e4]
  tauto

/-- Witness for C4: the hypotheses of `test_all_left` hold at the concrete
filter `new 1 1 1 1 0` and the conclusion follows by applying the theorem. -/
theorem test_all_left_witness :
    (new 1 1 1 1 0).memberships ≠ 0 ∧ (new 1 1 1 1 0).filter ≠ 0 ∧ WF (new 1 1 1 1 0) ∧
      test all (new 1 1 1 1 0) =
        (((new 1 1 1 1 0).filter != 0) && ((new 1 1 1 1 0).memberships != 0) &&
          ((new 1 1 1 1 0).belongs_to_grouping != all.belongs_to_grouping ||
            (((new 1 1 1 1 0).collides_with_with_grouping != 0) &&
              ((new 1 1 1 1 0).belongs_to_with_grouping != 0)))) :=
  ⟨by decide, by decide, ⟨by decide, by decide, by decide, by decide, by decide⟩,
    test_all_left (new 1 1 1 1 0) (by decide) (by decide)
      ⟨by decide, by decide, by decide, by decide, by decide⟩⟩

/-- C5: with `a = new 0xFF 0xFF 0b01 0b10 1` and an identical `b`, the global
test passes but the grouping-scoped test fails (`0b01 &&& 0b10 = 0`), so
`test a b = false`; changing `b`'s grouping id to `2` bypasses the grouping
gate, so `test a b = true`. -/
theorem test_grouping_scenarios :
    test (new 0xFF 0xFF 0b01 0b10 1) (new 0xFF 0xFF 0b01 0b10 1) = false ∧
      test (new 0xFF 0xFF 0b01 0b10 1) (new 0xFF 0xFF 0b01 0b10 2) = true := by
  decide

/-- C6: `with_memberships m` changes only the `memberships` field and
`with_filter f` changes only the `filter` field; in particular
`(all.with_memberships 5).filter = all.filter` and
`(all.with_memberships 5).memberships = 5`. -/
theorem builders_frame (x : InteractionGroups) (m f : Nat) :
    (x.with_memberships m).memberships = m ∧
      (x.with_memberships m).filter = x.filter ∧
      (x.with_memberships m).belongs_to_with_grouping = x.belongs_to_with_grouping ∧
      (x.with_memberships m).collides_with_with_grouping = x.collides_with_with_grouping ∧
      (x.with_memberships m).belongs_to_grouping = x.belongs_to_grouping ∧
      (x.with_filter f).filter = f ∧
      (x.with_filter f).memberships = x.memberships ∧
      (x.with_filter f).belongs_to_with_grouping = x.belongs_to_with_grouping ∧
      (x.with_filter f).collides_with_with_grouping = x.collides_with_with_grouping ∧
      (x.with_filter f).belongs_to_grouping = x.belongs_to_grouping ∧
      (all.with_memberships 5).filter = all.filter ∧
      (all.with_memberships 5).memberships = 5 :=
  ⟨rfl, rfl, rfl, rfl, rfl, rfl, rfl, rfl, rfl, rfl, rfl, rfl⟩

/-- C7: the default-constructed filter equals `all()`: the fully permissive
filter is the implicit default. -/
theorem default_eq_all : InteractionGroups.default = all := rfl

/-- C8: every operation of the component is total: each constructor and
builder returns a filter value and `test` returns a boolean, with no error,
panic, or partial-result branch. -/
theorem ops_total (m f g c i : Nat) (a b : InteractionGroups) :
    (∃ r : InteractionGroups, new m f g c i = r) ∧
      (∃ r : InteractionGroups, all = r) ∧
      (∃ r : InteractionGroups, InteractionGroups.none = r) ∧
      (∃ r : InteractionGroups, InteractionGroups.default = r) ∧
      (∃ r : InteractionGroups, a.with_memberships m = r) ∧
      (∃ r : InteractionGroups, a.with_filter f = r) ∧
      (∃ v : Bool, test a b = v) :=
  ⟨⟨_, rfl⟩, ⟨_, rfl⟩, ⟨_, rfl⟩, ⟨_, rfl⟩, ⟨_, rfl⟩, ⟨_, rfl⟩, ⟨_, rfl⟩⟩

/-- C9: the self-test reduces to both the global and the grouping-scoped
intersections of `a` with itself being nonzero, since a filter always shares
its own grouping id. -/
theorem test_self (a : InteractionGroups) :
    test a a = ((a.memberships &&& a.filter != 0) &&
      (a.belongs_to_with_grouping &&& a.collides_with_with_grouping != 0)) := by
  rw [Bool.eq_iff_iff]
  simp [test]

/-- C10: the builder operations commute and the last write wins. -/
theorem builders_commute (x : InteractionGroups) (m m2 f : Nat) :
    (x.with_memberships m).with_filter f = (x.with_filter f).with_memberships m ∧
      (x.with_memberships m).with_memberships m2 = x.with_memberships m2 :=
  ⟨rfl, rfl⟩

end InteractionGroups
